import Mathlib

/-
  Verification of the MongoDB Atlas cluster resource provider
  (src/mongodbatlas/resource_mongodbatlas_cluster.go).

  The Go source is shallowly embedded below.  Conventions:
  - Go pointer fields (`*bool`, `*int64`, `*float64`) are `Option` values:
    `none` is the nil pointer, `some v` a pointer to `v`.
  - Go `float64` configuration values are only copied, never computed with,
    so they are carried as `Rat`.
  - Go maps (`map[string]T`) are association lists with overwrite-on-insert;
    the unspecified Go map iteration order is represented by insertion order
    (no claim below depends on that order).
  - Fallible Go functions return `Except String`.
-/

/-! ## Generic string helpers (Go `strings.Contains`, `strings.SplitN`) -/

/-- Whether the first list is a leading segment of the second. -/
def leadsWith : List Char → List Char → Bool
  | [], _ => true
  | _ :: _, [] => false
  | a :: as, b :: bs => a == b && leadsWith as bs

/-- Whether `needle` occurs contiguously inside the second list. -/
def hasSub (needle : List Char) : List Char → Bool
  | [] => needle.isEmpty
  | c :: rest => leadsWith needle (c :: rest) || hasSub needle rest

/-- Go `strings.Contains hay needle` (argument order: needle first here). -/
def hasSubStr (needle hay : String) : Bool :=
  hasSub needle.data hay.data

/-- Split at the first occurrence of `sep`: the two surrounding segments,
or `none` when `sep` does not occur.  This is Go
`strings.SplitN s sep 2` restricted to a one-character separator:
`none` corresponds to a one-element result slice. -/
def splitFirst (sep : Char) : List Char → Option (List Char × List Char)
  | [] => none
  | c :: rest =>
    if c = sep then some ([], rest)
    else (splitFirst sep rest).map (fun p => (c :: p.1, p.2))

/-! ## Error message formats (source lines 24-29 and inline `fmt.Errorf`) -/

/-- Source constant `errorCreate = "error creating MongoDB Cluster: %s"`. -/
def errorCreateMsg (cause : String) : String :=
  "error creating MongoDB Cluster: " ++ cause

/-- Source constant `errorRead = "error reading MongoDB Cluster (%s): %s"`. -/
def errorReadMsg (name cause : String) : String :=
  "error reading MongoDB Cluster (" ++ name ++ "): " ++ cause

/-- Source constant `errorDelete = "error deleting MongoDB Cluster (%s): %s"`. -/
def errorDeleteMsg (name cause : String) : String :=
  "error deleting MongoDB Cluster (" ++ name ++ "): " ++ cause

/-- Source constant `errorUpdate = "error updating MongoDB Cluster (%s): %s"`. -/
def errorUpdateMsg (name cause : String) : String :=
  "error updating MongoDB Cluster (" ++ name ++ "): " ++ cause

/-- Validation message from `resourceMongoDBAtlasClusterCreate` line 253. -/
def clusterTypeRequiredMsg : String :=
  "`cluster_type` should be set when `replication_specs` is set"

/-- Validation message from `resourceMongoDBAtlasClusterCreate` line 257. -/
def numShardsRequiredMsg : String :=
  "`num_shards` should be set when `replication_specs` is set"

/-- Import format message from `resourceMongoDBAtlasClusterImportState`. -/
def importFormatErrMsg : String :=
  "import format error: to import a cluster, use the format {project_id}-{name}"

/-! ## Small Go library functions used by the source -/

/-- Go `strconv.FormatBool`. -/
def goFormatBool : Bool → String
  | true => "true"
  | false => "false"

/-- `cast.ToBool` on a string value: `strconv.ParseBool`, with parse
failures coerced to `false` (spf13/cast behaviour). -/
def castToBool (s : String) : Bool :=
  ["1", "t", "T", "true", "TRUE", "True"].contains s

/-! ## The matlas wire structures (go-client-mongodb-atlas)

Only fields touched by the source file are carried.  Go zero values:
strings `""`, pointers `none`, slices `[]`. -/

/-- `matlas.AutoScaling`. -/
structure AutoScaling where
  diskGBEnabled : Option Bool
deriving DecidableEq, Repr

/-- `matlas.BiConnector`. -/
structure BiConnector where
  enabled : Option Bool
  readPreference : String
deriving DecidableEq, Repr

/-- `matlas.ProviderSettings`. -/
structure ProviderSettings where
  diskIOPS : Option Int
  encryptEBSVolume : Option Bool
  backingProviderName : String
  diskTypeName : String
  instanceSizeName : String
  providerName : String
  regionName : String
  volumeType : String
deriving DecidableEq, Repr

/-- `matlas.RegionsConfig`. -/
structure RegionsConfig where
  analyticsNodes : Option Int
  electableNodes : Option Int
  priority : Option Int
  readOnlyNodes : Option Int
deriving DecidableEq, Repr

/-- `matlas.ReplicationSpec`; `RegionsConfig` is a Go map keyed by region
name, represented as an association list. -/
structure ReplicationSpec where
  id : String
  numShards : Option Int
  zoneName : String
  regionsConfig : List (String × RegionsConfig)
deriving DecidableEq, Repr

/-- `matlas.Cluster`: both the create/update request payload and the body
returned by `Clusters.Get`. -/
structure Cluster where
  id : String
  groupID : String
  name : String
  encryptionAtRestProvider : String
  mongoDBMajorVersion : String
  mongoDBVersion : String
  clusterType : String
  backupEnabled : Option Bool
  diskSizeGB : Option Rat
  providerBackupEnabled : Option Bool
  autoScaling : AutoScaling
  biConnector : BiConnector
  providerSettings : Option ProviderSettings
  replicationSpecs : List ReplicationSpec
  replicationFactor : Option Int
  numShards : Option Int
  mongoURI : String
  mongoURIUpdated : String
  mongoURIWithOptions : String
  paused : Option Bool
  srvAddress : String
  stateName : String
deriving DecidableEq, Repr

/-- The Go zero value `matlas.Cluster{}` (what `new(matlas.Cluster)`
points at). -/
def emptyCluster : Cluster :=
  { id := "", groupID := "", name := "", encryptionAtRestProvider := ""
    mongoDBMajorVersion := "", mongoDBVersion := "", clusterType := ""
    backupEnabled := none, diskSizeGB := none, providerBackupEnabled := none
    autoScaling := { diskGBEnabled := none }
    biConnector := { enabled := none, readPreference := "" }
    providerSettings := none, replicationSpecs := []
    replicationFactor := none, numShards := none
    mongoURI := "", mongoURIUpdated := "", mongoURIWithOptions := ""
    paused := none, srvAddress := "", stateName := "" }

/-- The Go zero value `matlas.ProviderSettings{}`. -/
def emptyProviderSettings : ProviderSettings :=
  { diskIOPS := none, encryptEBSVolume := none, backingProviderName := ""
    diskTypeName := "", instanceSizeName := "", providerName := ""
    regionName := "", volumeType := "" }

/-! ## Go `reflect.DeepEqual` as used by the update handler

The update handler compares `cluster` (a `*matlas.Cluster`, from
`new(matlas.Cluster)`) with `matlas.Cluster{}` (a bare struct value).
`reflect.DeepEqual` declares values of distinct dynamic types never
deeply equal; two non-nil pointers are deeply equal when their pointees
are. -/

/-- A Go interface value holding either a `*matlas.Cluster` or a
`matlas.Cluster`. -/
inductive GoClusterValue
  | ptrCluster (c : Cluster)
  | structCluster (c : Cluster)
deriving DecidableEq, Repr

/-- `reflect.DeepEqual` restricted to `GoClusterValue` operands
(Go reflect documentation: values of distinct types are never deeply
equal; pointers are deeply equal when the pointed-to values are). -/
def reflectDeepEqual : GoClusterValue → GoClusterValue → Bool
  | .ptrCluster a, .ptrCluster b => a == b
  | .structCluster a, .structCluster b => a == b
  | _, _ => false

/-! ## The Terraform configuration record

Modelled from the spec: the configuration store collaborator ("typed
getters/setters keyed by field name, with a was-this-field-explicitly-set
query") is the Terraform SDK, outside src/.  Each field carries the value
`d.Get` returns (the configured value, or the schema default, or the type
zero value); `d.GetOk` reports whether that value differs from the type
zero value, which each operation below inlines as a comparison with
`""`/`0`/`[]`/`none`. -/

/-- One `regions_config` set entry of the `replication_specs` schema. -/
structure RegionConfigCfg where
  regionName : String
  electableNodes : Int
  priority : Int
  readOnlyNodes : Int
  analyticsNodes : Int
deriving DecidableEq, Repr

/-- One `replication_specs` list entry. -/
structure ReplicationSpecCfg where
  id : String
  numShards : Int
  regionsConfig : List RegionConfigCfg
  zoneName : String
deriving DecidableEq, Repr

/-- The `bi_connector` map attribute (both values are strings in the
schema). -/
structure BiConnectorCfg where
  enabled : String
  readPreference : String
deriving DecidableEq, Repr

/-- The cluster resource configuration as read through `d.Get`;
`biConnector = none` models an empty `bi_connector` map (its `GetOk`
reports false). -/
structure ClusterConfig where
  projectId : String
  name : String
  autoScalingDiskGBEnabled : Bool
  backupEnabled : Bool
  biConnector : Option BiConnectorCfg
  clusterType : String
  diskSizeGB : Rat
  encryptionAtRestProvider : String
  mongoDBMajorVersion : String
  numShards : Int
  providerBackupEnabled : Bool
  providerInstanceSizeName : String
  providerName : String
  backingProviderName : String
  providerDiskIOPS : Int
  providerDiskTypeName : String
  providerEncryptEBSVolume : Bool
  providerRegionName : String
  providerVolumeType : String
  replicationFactor : Int
  replicationSpecs : List ReplicationSpecCfg
deriving DecidableEq, Repr

/-! ## Request translator (expand / flatten helpers of the source) -/

/-- `expandBiConnector` (source lines 569-583).  In the source the error
return is always nil, so the value alone is carried. -/
def expandBiConnector (cfg : ClusterConfig) : BiConnector :=
  match cfg.biConnector with
  | some m => { enabled := some (castToBool m.enabled), readPreference := m.readPreference }
  | none => { enabled := none, readPreference := "" }

/-- `expandProviderSetting` (source lines 599-615). -/
def expandProviderSetting (cfg : ClusterConfig) : ProviderSettings :=
  { diskIOPS := some cfg.providerDiskIOPS
    encryptEBSVolume := some cfg.providerEncryptEBSVolume
    backingProviderName := cfg.backingProviderName
    diskTypeName := cfg.providerDiskTypeName
    instanceSizeName := cfg.providerInstanceSizeName
    providerName := cfg.providerName
    regionName := cfg.providerRegionName
    volumeType := cfg.providerVolumeType }

/-- Go map insertion `m[k] = v`: overwrite the binding if present,
otherwise append it. -/
def assocUpsert (k : String) (v : RegionsConfig) :
    List (String × RegionsConfig) → List (String × RegionsConfig)
  | [] => [(k, v)]
  | (k', v') :: rest =>
    if k' = k then (k, v) :: rest else (k', v') :: assocUpsert k v rest

/-- `expandRegionsConfig` (source lines 690-707).  `cast.ToStringE` on the
schema-typed string never fails, so the error return is dropped. -/
def expandRegionsConfig (regions : List RegionConfigCfg) :
    List (String × RegionsConfig) :=
  regions.foldl
    (fun m r =>
      assocUpsert r.regionName
        { analyticsNodes := some r.analyticsNodes
          electableNodes := some r.electableNodes
          priority := some r.priority
          readOnlyNodes := some r.readOnlyNodes } m)
    []

/-- `expandReplicationSpecs` (source lines 651-674); the only error path
is `cast.ToStringE` inside `expandRegionsConfig`, dead under the typed
schema, so the result is plain. -/
def expandReplicationSpecs (cfg : ClusterConfig) : List ReplicationSpec :=
  if cfg.replicationSpecs.isEmpty then []
  else
    cfg.replicationSpecs.map (fun s =>
      { id := s.id
        numShards := some s.numShards
        zoneName := s.zoneName
        regionsConfig := expandRegionsConfig s.regionsConfig })

/-- `flattenBiConnector` (source lines 585-597): a map gaining an
`enabled` entry only for a non-nil pointer and a `read_preference` entry
only for a non-empty string. -/
def flattenBiConnector (b : BiConnector) : List (String × String) :=
  (match b.enabled with
   | some e => [("enabled", goFormatBool e)]
   | none => []) ++
  (if b.readPreference ≠ "" then [("read_preference", b.readPreference)] else [])

/-- One flattened `regions_config` entry (`flattenRegionsConfig`). -/
structure FlatRegionConfig where
  regionName : String
  priority : Option Int
  analyticsNodes : Option Int
  electableNodes : Option Int
  readOnlyNodes : Option Int
deriving DecidableEq, Repr

/-- One flattened `replication_specs` entry (`flattenReplicationSpecs`). -/
structure FlatReplicationSpec where
  id : String
  numShards : Option Int
  zoneName : String
  regionsConfig : List FlatRegionConfig
deriving DecidableEq, Repr

/-- `flattenRegionsConfig` (source lines 709-723); Go map iteration order
is unspecified, represented here by the insertion order of the
association list. -/
def flattenRegionsConfig (m : List (String × RegionsConfig)) :
    List FlatRegionConfig :=
  m.map (fun rc =>
    { regionName := rc.1
      priority := rc.2.priority
      analyticsNodes := rc.2.analyticsNodes
      electableNodes := rc.2.electableNodes
      readOnlyNodes := rc.2.readOnlyNodes })

/-- `flattenReplicationSpecs` (source lines 676-688). -/
def flattenReplicationSpecs (rSpecs : List ReplicationSpec) :
    List FlatReplicationSpec :=
  rSpecs.map (fun r =>
    { id := r.id
      numShards := r.numShards
      zoneName := r.zoneName
      regionsConfig := flattenRegionsConfig r.regionsConfig })

/-! ## Create-request construction (`resourceMongoDBAtlasClusterCreate`,
source lines 245-298, up to the `Clusters.Create` call) -/

/-- The validation at the top of the create handler (source lines
251-259): with `replication_specs` set (`GetOk`: non-empty list),
`cluster_type` (`GetOk`: non-empty string) and `num_shards` (`GetOk`:
non-zero) must be set. -/
def validateCreate (cfg : ClusterConfig) : Option String :=
  if cfg.replicationSpecs.isEmpty then none
  else if cfg.clusterType = "" then some clusterTypeRequiredMsg
  else if cfg.numShards = 0 then some numShardsRequiredMsg
  else none

/-- The `matlas.Cluster` create request built at source lines 274-298.
`replication_factor` and `num_shards` are attached only when their
`GetOk` reports a non-zero value. -/
def createPayload (cfg : ClusterConfig) : Cluster :=
  { emptyCluster with
    name := cfg.name
    encryptionAtRestProvider := cfg.encryptionAtRestProvider
    mongoDBMajorVersion := cfg.mongoDBMajorVersion
    clusterType := cfg.clusterType
    backupEnabled := some cfg.backupEnabled
    diskSizeGB := some cfg.diskSizeGB
    providerBackupEnabled := some cfg.providerBackupEnabled
    autoScaling := { diskGBEnabled := some cfg.autoScalingDiskGBEnabled }
    biConnector := expandBiConnector cfg
    providerSettings := some (expandProviderSetting cfg)
    replicationSpecs := expandReplicationSpecs cfg
    replicationFactor :=
      if cfg.replicationFactor ≠ 0 then some cfg.replicationFactor else none
    numShards := if cfg.numShards ≠ 0 then some cfg.numShards else none }

/-- `toCreateRequest`: validation followed by payload construction
(everything the create handler does before its network call). -/
def buildCreateRequest (cfg : ClusterConfig) : Except String Cluster :=
  match validateCreate cfg with
  | some e => .error e
  | none => .ok (createPayload cfg)

/-! ## Update-request construction (`resourceMongoDBAtlasClusterUpdate`,
source lines 414-485) -/

/-- Which attributes `d.HasChange` reports as changed for one update
invocation. -/
structure UpdateChanges where
  biConnector : Bool
  providerDiskIOPS : Bool
  providerEncryptEBSVolume : Bool
  backingProviderName : Bool
  providerDiskTypeName : Bool
  providerInstanceSizeName : Bool
  providerName : Bool
  providerRegionName : Bool
  providerVolumeType : Bool
  replicationSpecs : Bool
  autoScalingDiskGBEnabled : Bool
  encryptionAtRestProvider : Bool
  mongoDBMajorVersion : Bool
  clusterType : Bool
  backupEnabled : Bool
  diskSizeGB : Bool
  providerBackupEnabled : Bool
  replicationFactor : Bool
  numShards : Bool
deriving DecidableEq, Repr

/-- An update invocation with no pending change on any attribute. -/
def noUpdateChanges : UpdateChanges :=
  { biConnector := false, providerDiskIOPS := false
    providerEncryptEBSVolume := false, backingProviderName := false
    providerDiskTypeName := false, providerInstanceSizeName := false
    providerName := false, providerRegionName := false
    providerVolumeType := false, replicationSpecs := false
    autoScalingDiskGBEnabled := false, encryptionAtRestProvider := false
    mongoDBMajorVersion := false, clusterType := false
    backupEnabled := false, diskSizeGB := false
    providerBackupEnabled := false, replicationFactor := false
    numShards := false }

/-- The provider-settings change disjunction of source lines 430-434
(`provider_instance_size_name` is tested three times there; the
repetition is kept). -/
def providerSettingsChanged (ch : UpdateChanges) : Bool :=
  ch.providerDiskIOPS || ch.providerEncryptEBSVolume ||
  ch.backingProviderName || ch.providerDiskTypeName ||
  ch.providerInstanceSizeName || ch.providerInstanceSizeName ||
  ch.providerInstanceSizeName || ch.providerName ||
  ch.providerRegionName || ch.providerVolumeType

/-- The `matlas.Cluster` update payload assembled at source lines
421-477: starting from `new(matlas.Cluster)`, each changed attribute is
copied in; provider settings are expanded when any of their arguments
changed and attached when the expansion differs from the zero
`ProviderSettings` (both operands of that inner `reflect.DeepEqual` are
struct values of the same type, so it is plain structural equality). -/
def buildUpdateRequest (ch : UpdateChanges) (cfg : ClusterConfig) : Cluster :=
  let c := emptyCluster
  let c := if ch.biConnector then { c with biConnector := expandBiConnector cfg } else c
  let ps := if providerSettingsChanged ch then expandProviderSetting cfg
            else emptyProviderSettings
  let c := if ps = emptyProviderSettings then c
           else { c with providerSettings := some ps }
  let c := if ch.replicationSpecs then
             { c with replicationSpecs := expandReplicationSpecs cfg } else c
  let c := if ch.autoScalingDiskGBEnabled then
             { c with autoScaling := { diskGBEnabled := some cfg.autoScalingDiskGBEnabled } } else c
  let c := if ch.encryptionAtRestProvider then
             { c with encryptionAtRestProvider := cfg.encryptionAtRestProvider } else c
  let c := if ch.mongoDBMajorVersion then
             { c with mongoDBMajorVersion := cfg.mongoDBMajorVersion } else c
  let c := if ch.clusterType then { c with clusterType := cfg.clusterType } else c
  let c := if ch.backupEnabled then { c with backupEnabled := some cfg.backupEnabled } else c
  let c := if ch.diskSizeGB then { c with diskSizeGB := some cfg.diskSizeGB } else c
  let c := if ch.providerBackupEnabled then
             { c with providerBackupEnabled := some cfg.providerBackupEnabled } else c
  let c := if ch.replicationFactor then
             { c with replicationFactor := some cfg.replicationFactor } else c
  let c := if ch.numShards then { c with numShards := some cfg.numShards } else c
  c

/-- The guard at source line 480:
`!reflect.DeepEqual(cluster, matlas.Cluster{})` where `cluster` is the
`*matlas.Cluster` from `new` and the right operand is a bare struct
value; `Clusters.Update` is invoked exactly when it yields true. -/
def updateSendsUpdateCall (ch : UpdateChanges) (cfg : ClusterConfig) : Bool :=
  !(reflectDeepEqual (.ptrCluster (buildUpdateRequest ch cfg))
      (.structCluster emptyCluster))

/-! ## The remote `Clusters.Get` outcome and the refresh function -/

/-- Outcome of one `client.Clusters.Get` call, as shaped by the Atlas
client: a successful body, an HTTP-level error (non-nil response, its
status code), or a transport-level error (nil body, nil response). -/
inductive GetOutcome
  | success (c : Cluster)
  | httpError (code : Nat) (msg : String)
  | transportError (msg : String)
deriving DecidableEq, Repr

/-- The non-nil result token a refresh tick hands to the wait loop:
either the fetched cluster or the literal `42` returned on 404. -/
inductive RefreshPayload
  | clusterData (c : Cluster)
  | deletedMarker
deriving DecidableEq, Repr

/-- The needle of the transport-reset test at source line 729. -/
def resetByPeerNeedle : String := "reset by peer"

/-- `resourceClusterRefreshFunc` (source lines 725-750): an error whose
text contains "reset by peer" becomes the REPEATING state with no
payload and no error; a remaining error with nil body and nil response
is fatal; a remaining error with a response is DELETED on status 404 and
fatal otherwise; a successful read reports the body and its state
name. -/
def resourceClusterRefreshFunc (o : GetOutcome) :
    Option RefreshPayload × String × Option String :=
  match o with
  | .transportError msg =>
    if hasSubStr resetByPeerNeedle msg then (none, "REPEATING", none)
    else (none, "", some msg)
  | .httpError code msg =>
    if hasSubStr resetByPeerNeedle msg then (none, "REPEATING", none)
    else if code = 404 then (some .deletedMarker, "DELETED", none)
    else (none, "", some msg)
  | .success c => (some (.clusterData c), c.stateName, none)

/-! ## The poll-loop driver -/

/-- The `Pending`/`Target` lists of a `resource.StateChangeConf`. -/
structure StateConf where
  pending : List String
  target : List String
deriving DecidableEq, Repr

/-- The create wait configuration (source lines 305-312). -/
def createConf : StateConf :=
  { pending := ["CREATING", "UPDATING", "REPAIRING", "REPEATING"]
    target := ["IDLE"] }

/-- The update wait configuration (source lines 487-494). -/
def updateConf : StateConf :=
  { pending := ["CREATING", "UPDATING", "REPAIRING"]
    target := ["IDLE"] }

/-- The delete wait configuration (source lines 520-527). -/
def deleteConf : StateConf :=
  { pending := ["IDLE", "CREATING", "UPDATING", "REPAIRING", "DELETING"]
    target := ["DELETED"] }

/-- Result of one wait loop, with the state it stopped in. -/
inductive WaitOutcome
  | completed (st : String)
  | failed (msg : String)
  | timedOut (lastState : String)
deriving DecidableEq, Repr

/-- Failure text for a refresh state outside pending and target. -/
def unexpectedStateMsg (st : String) : String :=
  "unexpected state: " ++ st

/-- Timeout text naming the last observed state. -/
def timeoutErrMsg (last : String) : String :=
  "timeout waiting for target state, last observed state: " ++ last

/-- Modelled from the spec: the wait-loop driver
(`resource.StateChangeConf.WaitForState` of the Terraform SDK) is not
among this repository sources.  Per the spec section 4.2: each tick
issues a read through the refresh function; an error returned by the
read terminates the loop fatally; a tick with no payload (the
transport-retry signal) continues polling without being treated as
fatal; a payload whose state label is in the target list completes the
loop; a label in the configured pending list continues; any other label
is surfaced as an error (the spec tie-break rule that a not-found
reported while the target is not the deletion state must be surfaced,
not treated as success); an exhausted script is the overall timeout,
reported with the last observed state.  The second component counts the
reads issued. -/
def waitSteps (conf : StateConf) (lastState : String) :
    List GetOutcome → WaitOutcome × Nat
  | [] => (.timedOut lastState, 0)
  | o :: rest =>
    match resourceClusterRefreshFunc o with
    | (_, _, some e) => (.failed e, 1)
    | (none, st, none) =>
      let r := waitSteps conf st rest
      (r.1, r.2 + 1)
    | (some _, st, none) =>
      if conf.target.contains st then (.completed st, 1)
      else if conf.pending.contains st then
        let r := waitSteps conf st rest
        (r.1, r.2 + 1)
      else (.failed (unexpectedStateMsg st), 1)

/-- A whole wait loop over a scripted sequence of status reads. -/
def waitForState (conf : StateConf) (script : List GetOutcome) :
    WaitOutcome × Nat :=
  waitSteps conf "PENDING" script

/-! ## The recorded Terraform state -/

/-- Modelled from the spec: `encodeStateID`/`decodeStateID` (helpers of
this repository that are not under src/) produce an opaque identifier by
joining cluster id, project id and cluster name, reversible back to its
parts; the encoding is therefore represented by the triple itself. -/
structure StateID where
  clusterId : String
  projectId : String
  clusterName : String
deriving DecidableEq, Repr

/-- The attribute values the read handler records through `d.Set`. -/
structure StateAttrs where
  clusterId : String
  autoScalingDiskGBEnabled : Option Bool
  backupEnabled : Option Bool
  providerBackupEnabled : Option Bool
  clusterType : String
  diskSizeGB : Option Rat
  encryptionAtRestProvider : String
  mongoDBMajorVersion : String
  numShards : Int
  mongoDBVersion : String
  mongoURI : String
  mongoURIUpdated : String
  mongoURIWithOptions : String
  paused : Option Bool
  srvAddress : String
  stateName : String
  biConnector : List (String × String)
  backingProviderName : String
  providerDiskIOPS : Option Int
  providerDiskTypeName : String
  providerEncryptEBSVolume : Option Bool
  providerInstanceSizeName : String
  providerName : String
  providerRegionName : String
  providerVolumeType : String
  replicationSpecs : List FlatReplicationSpec
  replicationFactor : Option Int
deriving DecidableEq, Repr

/-- A zero attribute record, used as a round-trip starting point. -/
def emptyStateAttrs : StateAttrs :=
  { clusterId := "", autoScalingDiskGBEnabled := none, backupEnabled := none
    providerBackupEnabled := none, clusterType := "", diskSizeGB := none
    encryptionAtRestProvider := "", mongoDBMajorVersion := "", numShards := 0
    mongoDBVersion := "", mongoURI := "", mongoURIUpdated := ""
    mongoURIWithOptions := "", paused := none, srvAddress := ""
    stateName := "", biConnector := [], backingProviderName := ""
    providerDiskIOPS := none, providerDiskTypeName := ""
    providerEncryptEBSVolume := none, providerInstanceSizeName := ""
    providerName := "", providerRegionName := "", providerVolumeType := ""
    replicationSpecs := [], replicationFactor := none }

/-- The recorded resource state: the composite identifier (`d.Id`;
`none` models the empty id of a deleted resource) and the attribute
values. -/
structure TFState where
  stateId : Option StateID
  attrs : StateAttrs
deriving DecidableEq, Repr

/-- `flattenProviderSettings` (source lines 617-649): the eight provider
attributes written back from a `ProviderSettings` value. -/
def applyProviderSettings (ps : ProviderSettings) (s : StateAttrs) : StateAttrs :=
  { s with
    backingProviderName := ps.backingProviderName
    providerDiskIOPS := ps.diskIOPS
    providerDiskTypeName := ps.diskTypeName
    providerEncryptEBSVolume := ps.encryptEBSVolume
    providerInstanceSizeName := ps.instanceSizeName
    providerName := ps.providerName
    providerRegionName := ps.regionName
    providerVolumeType := ps.volumeType }

/-- The `d.Set` sequence of the read handler (source lines 345-409):
`mongo_db_major_version` is written from the payload `MongoDBVersion`
field (line 366); `num_shards` only when the payload carries it (lines
371-375); the provider attributes only for a non-nil
`ProviderSettings` (lines 401-403). -/
def applyRead (c : Cluster) (s : StateAttrs) : StateAttrs :=
  let s := { s with
    clusterId := c.id
    autoScalingDiskGBEnabled := c.autoScaling.diskGBEnabled
    backupEnabled := c.backupEnabled
    providerBackupEnabled := c.providerBackupEnabled
    clusterType := c.clusterType
    diskSizeGB := c.diskSizeGB
    encryptionAtRestProvider := c.encryptionAtRestProvider
    mongoDBMajorVersion := c.mongoDBVersion }
  let s := match c.numShards with
    | some n => { s with numShards := n }
    | none => s
  let s := { s with
    mongoDBVersion := c.mongoDBVersion
    mongoURI := c.mongoURI
    mongoURIUpdated := c.mongoURIUpdated
    mongoURIWithOptions := c.mongoURIWithOptions
    paused := c.paused
    srvAddress := c.srvAddress
    stateName := c.stateName
    biConnector := flattenBiConnector c.biConnector }
  let s := match c.providerSettings with
    | some ps => applyProviderSettings ps s
    | none => s
  { s with
    replicationSpecs := flattenReplicationSpecs c.replicationSpecs
    replicationFactor := c.replicationFactor }

/-- `resourceMongoDBAtlasClusterRead` (source lines 329-412) over one
remote `Get` outcome: a 404 with a response returns success without
touching the state; any other error is wrapped with the read prefix; a
successful body is written back attribute by attribute.  (`d.Set` type
failures cannot arise in the typed embedding.) -/
def resourceRead (o : GetOutcome) (s : TFState) : Except String TFState :=
  let clusterName := match s.stateId with
    | some i => i.clusterName
    | none => ""
  match o with
  | .httpError code msg =>
    if code = 404 then .ok s
    else .error (errorReadMsg clusterName msg)
  | .transportError msg => .error (errorReadMsg clusterName msg)
  | .success c => .ok { s with attrs := applyRead c s.attrs }

/-! ## The create pipeline (`resourceMongoDBAtlasClusterCreate`,
source lines 245-327) -/

/-- What one create invocation produced: the recorded composite
identifier (`d.SetId`, source lines 320-324; `none` when never set), a
flag telling whether the mutating `Clusters.Create` network call was
issued, and the returned error. -/
structure CreateOutcome where
  recordedId : Option StateID
  createCalled : Bool
  errMsg : Option String
deriving DecidableEq, Repr

/-- `resourceMongoDBAtlasClusterCreate`: validation, request
construction, the `Clusters.Create` call (its outcome supplied as
`remoteCreate`), the wait to IDLE over the scripted reads, and only then
`d.SetId` with cluster id, project id and cluster name.  The trailing
re-read (source line 326) does not touch the recorded identifier and is
omitted here. -/
def resourceCreate (cfg : ClusterConfig) (remoteCreate : Except String Cluster)
    (script : List GetOutcome) : CreateOutcome :=
  match buildCreateRequest cfg with
  | .error e => { recordedId := none, createCalled := false, errMsg := some e }
  | .ok _ =>
    match remoteCreate with
    | .error e =>
      { recordedId := none, createCalled := true
        errMsg := some (errorCreateMsg e) }
    | .ok cluster =>
      match (waitForState createConf script).1 with
      | .completed _ =>
        { recordedId := some
            { clusterId := cluster.id, projectId := cfg.projectId
              clusterName := cluster.name }
          createCalled := true, errMsg := none }
      | .failed e =>
        { recordedId := none, createCalled := true
          errMsg := some (errorCreateMsg e) }
      | .timedOut last =>
        { recordedId := none, createCalled := true
          errMsg := some (errorCreateMsg (timeoutErrMsg last)) }

/-! ## Import (`resourceMongoDBAtlasClusterImportState`,
source lines 537-546: the id parsing) -/

/-- The `strings.SplitN(d.Id(), "-", 2)` parsing of the import handler:
two parts (project id, cluster name) split at the first hyphen, or the
format error when no hyphen is present. -/
def importIdParts (s : String) : Except String (String × String) :=
  match splitFirst '-' s.data with
  | none => .error importFormatErrMsg
  | some (p, n) => .ok (String.mk p, String.mk n)

/-! ## Concrete sample values used by witnesses and counterexamples -/

/-- A region entry mirroring the documented multi-region example. -/
def sampleRegion : RegionConfigCfg :=
  { regionName := "US_EAST_1", electableNodes := 3, priority := 7
    readOnlyNodes := 0, analyticsNodes := 0 }

/-- A replication spec entry built from `sampleRegion`. -/
def sampleSpecEntry : ReplicationSpecCfg :=
  { id := "", numShards := 1, regionsConfig := [sampleRegion]
    zoneName := "ZoneName managed by Terraform" }

/-- A concrete, fully populated configuration. -/
def sampleConfig : ClusterConfig :=
  { projectId := "5cf5a45a9ccf6400e60981b6", name := "cluster-test"
    autoScalingDiskGBEnabled := true, backupEnabled := true
    biConnector := none, clusterType := "REPLICASET", diskSizeGB := 100
    encryptionAtRestProvider := "", mongoDBMajorVersion := "4.0"
    numShards := 1, providerBackupEnabled := false
    providerInstanceSizeName := "M40", providerName := "AWS"
    backingProviderName := "", providerDiskIOPS := 300
    providerDiskTypeName := "", providerEncryptEBSVolume := false
    providerRegionName := "US_EAST_1", providerVolumeType := ""
    replicationFactor := 3, replicationSpecs := [sampleSpecEntry] }

/-- `sampleConfig` with the cluster type left unset. -/
def sampleConfigNoType : ClusterConfig :=
  { sampleConfig with clusterType := "" }

/-- A transport-reset read outcome. -/
def resetTick : GetOutcome :=
  .transportError "connection reset by peer"

/-- A not-found read outcome (HTTP 404 with an error body). -/
def notFoundTick : GetOutcome :=
  .httpError 404 "CLUSTER_NOT_FOUND: cluster not found"

/-- A successful read outcome reporting the given state name. -/
def okTick (st : String) : GetOutcome :=
  .success { emptyCluster with stateName := st }

/-! ## Helper lemmas -/

theorem strDataAppend (a b : String) : (a ++ b).data = a.data ++ b.data := rfl

theorem leadsWith_append_self (l t : List Char) : leadsWith l (l ++ t) = true := by
  induction l with
  | nil => rfl
  | cons a as ih => simp [leadsWith, ih]

theorem hasSub_nil_needle (l : List Char) : hasSub [] l = true := by
  cases l <;> simp [hasSub, leadsWith]

theorem hasSub_self_append (x s : List Char) : hasSub x (x ++ s) = true := by
  cases x with
  | nil => exact hasSub_nil_needle s
  | cons a as =>
    simp only [hasSub, List.cons_append, Bool.or_eq_true]
    exact Or.inl (leadsWith_append_self (a :: as) s)

theorem hasSub_self (x : List Char) : hasSub x x = true := by
  have h := hasSub_self_append x []
  rwa [List.append_nil] at h

theorem hasSub_append_left (p x l : List Char) (h : hasSub x l = true) :
    hasSub x (p ++ l) = true := by
  induction p with
  | nil => exact h
  | cons c p' ih => simp [hasSub, ih]

theorem splitFirst_found (sep : Char) (l₁ l₂ : List Char) (h : sep ∉ l₁) :
    splitFirst sep (l₁ ++ sep :: l₂) = some (l₁, l₂) := by
  induction l₁ with
  | nil => simp [splitFirst]
  | cons c l₁' ih =>
    have hc : c ≠ sep := fun hcs => h (hcs ▸ List.mem_cons_self c l₁')
    have hmem : sep ∉ l₁' := fun hm => h (List.mem_cons_of_mem c hm)
    simp [splitFirst, hc, ih hmem]

theorem waitSteps_cons_indep (conf : StateConf) (s₁ s₂ : String)
    (o : GetOutcome) (rest : List GetOutcome) :
    waitSteps conf s₁ (o :: rest) = waitSteps conf s₂ (o :: rest) := rfl

theorem waitSteps_skip_pending (conf : StateConf) (st : String)
    (htarget : conf.target.contains st = false)
    (hpending : conf.pending.contains st = true) :
    ∀ (k : Nat) (s : String) (o : GetOutcome) (rest : List GetOutcome),
      waitSteps conf s (List.replicate k (okTick st) ++ o :: rest) =
        ((waitSteps conf s (o :: rest)).1, (waitSteps conf s (o :: rest)).2 + k) := by
  intro k
  induction k with
  | zero => intro s o rest; simp
  | succ k ih =>
    intro s o rest
    rw [List.replicate_succ, List.cons_append]
    have hstep : waitSteps conf s (okTick st :: (List.replicate k (okTick st) ++ o :: rest)) =
        ((waitSteps conf st (List.replicate k (okTick st) ++ o :: rest)).1,
         (waitSteps conf st (List.replicate k (okTick st) ++ o :: rest)).2 + 1) := by
      show (if conf.target.contains st = true then (WaitOutcome.completed st, 1)
            else if conf.pending.contains st = true then
              ((waitSteps conf st (List.replicate k (okTick st) ++ o :: rest)).1,
               (waitSteps conf st (List.replicate k (okTick st) ++ o :: rest)).2 + 1)
            else (WaitOutcome.failed (unexpectedStateMsg st), 1)) = _
      rw [htarget, hpending]
      simp
    rw [hstep, ih st o rest, waitSteps_cons_indep conf st s o rest]
    simp [Nat.add_assoc]

theorem waitSteps_all_resets (conf : StateConf) :
    ∀ (n : Nat) (s : String),
      (waitSteps conf s (List.replicate (n + 1) resetTick)).1 =
        WaitOutcome.timedOut "REPEATING" := by
  intro n
  induction n with
  | zero => intro s; rfl
  | succ k ih => intro s; exact ih "REPEATING"

/-! ## Claim theorems -/

/-- Claim C1 (code bug witness): for an update invocation in which no
configured field differs from the last-known state (`HasChange` false
everywhere), the built update payload is the empty (zero) cluster, yet
the guard still reports pending changes, so the remote `Clusters.Update`
network call is issued: `reflect.DeepEqual` compares the
`*matlas.Cluster` from `new` against a bare `matlas.Cluster{}` value,
and distinct types are never deeply equal. -/
theorem update_empty_payload_still_calls_update (cfg : ClusterConfig) :
    buildUpdateRequest noUpdateChanges cfg = emptyCluster ∧
      updateSendsUpdateCall noUpdateChanges cfg = true := by
  constructor
  · rfl
  · rfl

/-- Claim C2: in the create, update and delete wait loops alike, a
status read failing with a connection-reset error is mapped to the
transient REPEATING state and polling simply continues with the rest of
the script; a script consisting solely of such errors runs to the
overall timeout (it is never cut short), ending in the REPEATING
state. -/
theorem transport_reset_is_transient :
    (∀ rest, waitForState createConf (resetTick :: rest) =
      ((waitSteps createConf "REPEATING" rest).1,
       (waitSteps createConf "REPEATING" rest).2 + 1)) ∧
    (∀ rest, waitForState updateConf (resetTick :: rest) =
      ((waitSteps updateConf "REPEATING" rest).1,
       (waitSteps updateConf "REPEATING" rest).2 + 1)) ∧
    (∀ rest, waitForState deleteConf (resetTick :: rest) =
      ((waitSteps deleteConf "REPEATING" rest).1,
       (waitSteps deleteConf "REPEATING" rest).2 + 1)) ∧
    (∀ n, (waitForState createConf (List.replicate (n + 1) resetTick)).1 =
      WaitOutcome.timedOut "REPEATING") ∧
    (∀ n, (waitForState updateConf (List.replicate (n + 1) resetTick)).1 =
      WaitOutcome.timedOut "REPEATING") ∧
    (∀ n, (waitForState deleteConf (List.replicate (n + 1) resetTick)).1 =
      WaitOutcome.timedOut "REPEATING") :=
  ⟨fun _ => rfl, fun _ => rfl, fun _ => rfl,
   fun n => waitSteps_all_resets createConf n "PENDING",
   fun n => waitSteps_all_resets updateConf n "PENDING",
   fun n => waitSteps_all_resets deleteConf n "PENDING"⟩

/-- Claim C3 (code bug witness): round-tripping the sample configuration
through the create request and the read-back mapping loses the
`mongo_db_major_version` scalar: the read handler copies the payload
`MongoDBVersion` field (empty on the request) into
`mongo_db_major_version`, so the configured "4.0" comes back as "",
while a neighbouring scalar such as `cluster_type` survives. -/
theorem round_trip_drops_mongo_db_major_version :
    (buildCreateRequest sampleConfig).map
        (fun p => (applyRead p emptyStateAttrs).mongoDBMajorVersion) =
      Except.ok "" ∧
    sampleConfig.mongoDBMajorVersion = "4.0" ∧
    (buildCreateRequest sampleConfig).map
        (fun p => (applyRead p emptyStateAttrs).clusterType) =
      Except.ok "REPLICASET" :=
  ⟨rfl, rfl, rfl⟩

/-- Claim C4: a 404 read is turned into the DELETED label; with the
delete loop (target DELETED) it completes the wait successfully on
whatever tick it occurs, while with the create or update loop (target
IDLE) it is surfaced as an unexpected-state error on whatever tick it
occurs — never as success. -/
theorem not_found_succeeds_only_when_deleting :
    (∀ (k : Nat) (rest : List GetOutcome),
      waitForState deleteConf
          (List.replicate k (okTick "DELETING") ++ notFoundTick :: rest) =
        (WaitOutcome.completed "DELETED", 1 + k)) ∧
    (∀ (k : Nat) (rest : List GetOutcome),
      waitForState createConf
          (List.replicate k (okTick "CREATING") ++ notFoundTick :: rest) =
        (WaitOutcome.failed (unexpectedStateMsg "DELETED"), 1 + k)) ∧
    (∀ (k : Nat) (rest : List GetOutcome),
      waitForState updateConf
          (List.replicate k (okTick "UPDATING") ++ notFoundTick :: rest) =
        (WaitOutcome.failed (unexpectedStateMsg "DELETED"), 1 + k)) := by
  refine ⟨fun k rest => ?_, fun k rest => ?_, fun k rest => ?_⟩
  · rw [waitForState, waitSteps_skip_pending deleteConf "DELETING" rfl rfl k]
    simp [Nat.add_comm]
    exact ⟨rfl, rfl⟩
  · rw [waitForState, waitSteps_skip_pending createConf "CREATING" rfl rfl k]
    simp [Nat.add_comm]
    exact ⟨rfl, rfl⟩
  · rw [waitForState, waitSteps_skip_pending updateConf "UPDATING" rfl rfl k]
    simp [Nat.add_comm]
    exact ⟨rfl, rfl⟩

theorem hasSub_mid (p x q y : List Char) :
    hasSub x (((p ++ x) ++ q) ++ y) = true := by
  have h : ((p ++ x) ++ q) ++ y = p ++ (x ++ (q ++ y)) := by
    simp [List.append_assoc]
  rw [h]
  exact hasSub_append_left p x (x ++ (q ++ y)) (hasSub_self_append x (q ++ y))

/-- Claim C5: for every configuration with a replication topology set,
if the cluster-type value or the shard-count value is absent (its
`GetOk` zero value), the create operation fails with the corresponding
validation message and the mutating `Clusters.Create` network call is
never issued. -/
theorem create_validates_topology_dependencies (cfg : ClusterConfig)
    (rc : Except String Cluster) (script : List GetOutcome)
    (hrs : cfg.replicationSpecs ≠ [])
    (habs : cfg.clusterType = "" ∨ cfg.numShards = 0) :
    (resourceCreate cfg rc script).createCalled = false ∧
    ((resourceCreate cfg rc script).errMsg = some clusterTypeRequiredMsg ∨
     (resourceCreate cfg rc script).errMsg = some numShardsRequiredMsg) := by
  have hempty : cfg.replicationSpecs.isEmpty = false := by
    simp [List.isEmpty_iff]
    exact hrs
  have hval : validateCreate cfg = some clusterTypeRequiredMsg ∨
      validateCreate cfg = some numShardsRequiredMsg := by
    rcases habs with h1 | h2
    · left
      simp [validateCreate, hempty, h1]
    · by_cases h1 : cfg.clusterType = ""
      · left
        simp [validateCreate, hempty, h1]
      · right
        simp [validateCreate, hempty, h1, h2]
  rcases hval with h | h
  · constructor
    · simp [resourceCreate, buildCreateRequest, h]
    · left
      simp [resourceCreate, buildCreateRequest, h]
  · constructor
    · simp [resourceCreate, buildCreateRequest, h]
    · right
      simp [resourceCreate, buildCreateRequest, h]

/-- Claim C5 witness: the sample configuration with replication specs
but no cluster type is rejected before any network call. -/
theorem create_validates_topology_dependencies_witness :
    (resourceCreate sampleConfigNoType (Except.error "never") []).createCalled = false ∧
    ((resourceCreate sampleConfigNoType (Except.error "never") []).errMsg =
        some clusterTypeRequiredMsg ∨
     (resourceCreate sampleConfigNoType (Except.error "never") []).errMsg =
        some numShardsRequiredMsg) :=
  create_validates_topology_dependencies sampleConfigNoType (Except.error "never") []
    (by decide) (Or.inl rfl)

/-- Claim C6: the import identifier is split at the first hyphen
encountered — prepending any hyphen-free project id to a hyphen and a
name recovers exactly that pair; the documented example
`abc123-my-cluster` yields project id `abc123` and name `my-cluster`,
and an input without a hyphen fails with the format error. -/
theorem import_splits_at_first_hyphen :
    (∀ a b : String, '-' ∉ a.data →
      importIdParts (a ++ "-" ++ b) = Except.ok (a, b)) ∧
    importIdParts "abc123-my-cluster" = Except.ok ("abc123", "my-cluster") ∧
    importIdParts "nohyphen" = Except.error importFormatErrMsg := by
  refine ⟨fun a b h => ?_, rfl, rfl⟩
  have hdata : (a ++ "-" ++ b).data = a.data ++ '-' :: b.data := by
    show (a.data ++ ['-']) ++ b.data = a.data ++ '-' :: b.data
    simp
  rw [importIdParts, hdata, splitFirst_found '-' a.data b.data h]

/-- Claim C6 witness: a concrete hyphen-free project id splits off the
remainder, hyphens in the name included, via the general statement. -/
theorem import_splits_at_first_hyphen_witness :
    importIdParts ("proj" ++ "-" ++ "my-cluster") = Except.ok ("proj", "my-cluster") :=
  import_splits_at_first_hyphen.1 "proj" "my-cluster" (by decide)

/-- Claim C7 counterexample: the create operation returns its errors
through the `errorCreate` format, which contains no cluster name — for
the sample configuration (cluster name `cluster-test`) a failed create
produces a message in which that name does not occur. -/
theorem create_error_omits_cluster_name :
    (resourceCreate sampleConfig (Except.error "boom") []).errMsg =
      some (errorCreateMsg "boom") ∧
    sampleConfig.name = "cluster-test" ∧
    hasSubStr "cluster-test" (errorCreateMsg "boom") = false :=
  ⟨rfl, rfl, by decide⟩

/-- Claim C7 (amended): the read, update and delete error formats name
the operation, the cluster name and the underlying cause; the create
error format names the operation and the cause but not the cluster name
(witnessed at a concrete name). -/
theorem error_messages_name_operation_and_cause :
    (∀ name cause : String,
      hasSubStr name (errorReadMsg name cause) = true ∧
      hasSubStr cause (errorReadMsg name cause) = true) ∧
    (∀ name cause : String,
      hasSubStr name (errorUpdateMsg name cause) = true ∧
      hasSubStr cause (errorUpdateMsg name cause) = true) ∧
    (∀ name cause : String,
      hasSubStr name (errorDeleteMsg name cause) = true ∧
      hasSubStr cause (errorDeleteMsg name cause) = true) ∧
    (∀ cause : String, hasSubStr cause (errorCreateMsg cause) = true) ∧
    hasSubStr "my-cluster" (errorCreateMsg "bad request") = false := by
  refine ⟨fun name cause => ⟨?_, ?_⟩, fun name cause => ⟨?_, ?_⟩,
          fun name cause => ⟨?_, ?_⟩, fun cause => ?_, by decide⟩
  · exact hasSub_mid _ name.data _ cause.data
  · exact hasSub_append_left _ cause.data cause.data (hasSub_self cause.data)
  · exact hasSub_mid _ name.data _ cause.data
  · exact hasSub_append_left _ cause.data cause.data (hasSub_self cause.data)
  · exact hasSub_mid _ name.data _ cause.data
  · exact hasSub_append_left _ cause.data cause.data (hasSub_self cause.data)
  · exact hasSub_append_left _ cause.data cause.data (hasSub_self cause.data)

/-- Claim C8: the create operation records the composite identity
(cluster id, project id, cluster name) only when the wait-to-IDLE poll
completed; whenever the mutating create call or the wait fails or times
out, the recorded identity is left unset. -/
theorem create_identity_recorded_only_after_wait_success
    (cfg : ClusterConfig) (rc : Except String Cluster) (script : List GetOutcome) :
    (((∃ e, rc = Except.error e) ∨
      (∃ e, (waitForState createConf script).1 = WaitOutcome.failed e) ∨
      (∃ l, (waitForState createConf script).1 = WaitOutcome.timedOut l)) →
      (resourceCreate cfg rc script).recordedId = none) ∧
    ((resourceCreate cfg rc script).recordedId ≠ none →
      (∃ c, rc = Except.ok c) ∧
      (∃ st, (waitForState createConf script).1 = WaitOutcome.completed st)) := by
  simp only [resourceCreate]
  generalize hw : (waitForState createConf script).1 = w
  generalize buildCreateRequest cfg = b
  rcases b with e | p <;> rcases rc with e' | c <;> rcases w with st | e'' | l <;>
    constructor <;> simp

/-- Claim C8 witness: a failed remote create leaves the identity
unset. -/
theorem create_identity_recorded_only_after_wait_success_witness :
    (resourceCreate sampleConfig (Except.error "boom") []).recordedId = none :=
  (create_identity_recorded_only_after_wait_success sampleConfig
      (Except.error "boom") []).1 (Or.inl ⟨"boom", rfl⟩)

/-- Claim C9: with the create wait configuration (target IDLE), the
scripted read sequence CREATING, CREATING, IDLE completes the loop
successfully after exactly 3 reads with final state IDLE — also when
further script entries would be available. -/
theorem poller_scripted_sequence_takes_three_reads :
    waitForState createConf [okTick "CREATING", okTick "CREATING", okTick "IDLE"] =
      (WaitOutcome.completed "IDLE", 3) ∧
    ∀ rest, waitForState createConf
        (okTick "CREATING" :: okTick "CREATING" :: okTick "IDLE" :: rest) =
      (WaitOutcome.completed "IDLE", 3) :=
  ⟨rfl, fun _ => rfl⟩

/-- Claim C10: a read whose remote get reports HTTP 404 returns success
and the whole recorded state — composite identity and every attribute —
is returned unchanged; in particular the identity is not cleared. -/
theorem read_not_found_is_noop_success (s : TFState) (msg : String) :
    resourceRead (GetOutcome.httpError 404 msg) s = Except.ok s := rfl
